import Mathlib

/-!
# Verification of `auto_link.h` (`AutoReconnect`)

Shallow embedding of the reconnect supervisor in `src/auto_link.h`.

Modelling decisions:
* Arduino `unsigned long` is 32-bit; its arithmetic is modelled on `Nat`
  with explicit reduction modulo `2^32` (`ul`, `ulSub`).  The expression
  `millis() - _lastConnectAttempt` is wraparound subtraction (`ulSub`).
* C++ `int` fields (`_reconnectAttempts`, `_maxReconnectAttempts`) are
  modelled as `Int` (they may be set negative through `setMaxAttempts`).
* `std::function` callback slots carry no behaviour inside the class: the
  class only tests them for null-ness and calls them.  Each slot is
  modelled by a `Bool` presence flag, the values returned by the status
  and reconnect callbacks are inputs of `loop`, and every callback
  invocation is recorded as an `Event` in the order the code performs it.
* `millis()` is read several times inside one call (`loop`,
  `onConnectionStatusChanged`); all reads within one call are modelled by
  a single `now : Nat` argument, the monotonic time of the call.
-/

/-- The constant `2^32`, the modulus of Arduino `unsigned long` arithmetic. -/
def ulongMod : Nat := 4294967296

/-- Reduce a natural number into the `unsigned long` range. -/
def ul (n : Nat) : Nat := n % ulongMod

/-- Wraparound `unsigned long` subtraction `a - b`, reduced mod `2^32`. -/
def ulSub (a b : Nat) : Nat := (ul a + ulongMod - ul b) % ulongMod

/-- One observable callback invocation made by the supervisor.
`statusQuery r` records a call of the status callback returning `r`;
`reconnectCall r` a call of the reconnect callback returning `r`;
`logMsg` / `errorMsg` record the log and error callbacks with their
message text. -/
inductive Event where
  | statusQuery (result : Bool)
  | reconnectCall (result : Bool)
  | logMsg (msg : String)
  | errorMsg (msg : String)
  deriving Repr, DecidableEq

/-- The private state of `class AutoReconnect` (auto_link.h lines 16-33),
field for field, with the four callback slots reduced to presence flags. -/
structure AutoReconnect where
  shouldReconnect : Bool := true
  wasConnected : Bool := false
  lastConnectAttempt : Nat := 0
  connectionStartTime : Nat := 0
  reconnectAttempts : Int := 0
  maxReconnectAttempts : Int := 5
  connectionTimeoutMs : Nat := 15000
  reconnectDelayMs : Nat := 30000
  hasReconnectCallback : Bool := false
  hasStatusCallback : Bool := false
  hasLogCallback : Bool := false
  hasErrorCallback : Bool := false
  connectionName : String := "Connection"
  deriving Repr, DecidableEq

/-- The constructor `AutoReconnect(const String& connectionName)`. -/
def mkAutoReconnect (connectionName : String := "Connection") : AutoReconnect :=
  { connectionName := connectionName }

namespace AutoReconnect

/-- Method `setMaxAttempts` (line 40): stores the argument unvalidated. -/
def setMaxAttempts (s : AutoReconnect) (maxAttempts : Int) : AutoReconnect :=
  { s with maxReconnectAttempts := maxAttempts }

/-- Method `setConnectionTimeout` (line 41). -/
def setConnectionTimeout (s : AutoReconnect) (timeoutMs : Nat) : AutoReconnect :=
  { s with connectionTimeoutMs := ul timeoutMs }

/-- Method `setReconnectDelay` (line 42). -/
def setReconnectDelay (s : AutoReconnect) (delayMs : Nat) : AutoReconnect :=
  { s with reconnectDelayMs := ul delayMs }

/-- Method `setConnectionName` (line 43). -/
def setConnectionName (s : AutoReconnect) (name : String) : AutoReconnect :=
  { s with connectionName := name }

/-- Method `setReconnectCallback` (line 46): a slot may be set or cleared. -/
def setReconnectCallback (s : AutoReconnect) (present : Bool) : AutoReconnect :=
  { s with hasReconnectCallback := present }

/-- Method `setStatusCallback` (line 47). -/
def setStatusCallback (s : AutoReconnect) (present : Bool) : AutoReconnect :=
  { s with hasStatusCallback := present }

/-- Method `setLogCallback` (line 48). -/
def setLogCallback (s : AutoReconnect) (present : Bool) : AutoReconnect :=
  { s with hasLogCallback := present }

/-- Method `setErrorCallback` (line 49). -/
def setErrorCallback (s : AutoReconnect) (present : Bool) : AutoReconnect :=
  { s with hasErrorCallback := present }

/-- Method `enable()` (lines 52-59). -/
def enable (s : AutoReconnect) : AutoReconnect × List Event :=
  ({ s with shouldReconnect := true, reconnectAttempts := 0 },
   if s.hasLogCallback then
     [Event.logMsg (s.connectionName ++ " auto-reconnect enabled")]
   else [])

/-- Method `disable()` (lines 61-67). -/
def disable (s : AutoReconnect) : AutoReconnect × List Event :=
  ({ s with shouldReconnect := false },
   if s.hasLogCallback then
     [Event.logMsg (s.connectionName ++ " auto-reconnect disabled")]
   else [])

/-- Method `reset()` (lines 69-74). -/
def reset (s : AutoReconnect) : AutoReconnect :=
  { s with reconnectAttempts := 0, lastConnectAttempt := 0, connectionStartTime := 0 }

/-- Method `onConnectionAttemptStarted()` (lines 77-81). -/
def onConnectionAttemptStarted (s : AutoReconnect) (now : Nat) : AutoReconnect :=
  { s with connectionStartTime := ul now, lastConnectAttempt := ul now }

/-- Method `onConnectionStatusChanged(bool connected)` (lines 84-103). -/
def onConnectionStatusChanged (s : AutoReconnect) (connected : Bool) (now : Nat) :
    AutoReconnect × List Event :=
  if connected && !s.wasConnected then
    -- just connected (lines 86-92)
    ({ s with reconnectAttempts := 0, connectionStartTime := 0, wasConnected := connected },
     if s.hasLogCallback then
       [Event.logMsg (s.connectionName ++ " connected successfully")]
     else [])
  else if !connected && s.wasConnected then
    -- just disconnected (lines 93-101)
    if s.shouldReconnect then
      ({ s with lastConnectAttempt := ul now, wasConnected := connected },
       if s.hasLogCallback then
         [Event.logMsg (s.connectionName ++ " disconnected, will attempt reconnect")]
       else [])
    else ({ s with wasConnected := connected }, [])
  else ({ s with wasConnected := connected }, [])

/-- The status-update phase of `loop()` (lines 115-117): invoke
`onConnectionStatusChanged` only when the polled state differs. -/
def statusPhase (s : AutoReconnect) (currentlyConnected : Bool) (now : Nat) :
    AutoReconnect × List Event :=
  if currentlyConnected != s.wasConnected then
    onConnectionStatusChanged s currentlyConnected now
  else (s, [])

/-- The auto-reconnect guard of `loop()` (lines 132-134). -/
def trigCond (s : AutoReconnect) (currentlyConnected : Bool) (now : Nat) : Bool :=
  !currentlyConnected && s.shouldReconnect &&
    decide (s.reconnectAttempts < s.maxReconnectAttempts) &&
    decide (ulSub now s.lastConnectAttempt > s.reconnectDelayMs)

/-- The trigger phase of `loop()` (lines 132-152): on a firing guard,
increment the attempt count, stamp both timestamps, log, call the
reconnect callback, and report an error if it returned false. -/
def triggerPhase (s : AutoReconnect) (currentlyConnected : Bool) (now : Nat)
    (reconnectResult : Bool) : AutoReconnect × List Event :=
  if trigCond s currentlyConnected now then
    let s' := { s with reconnectAttempts := s.reconnectAttempts + 1,
                       lastConnectAttempt := ul now,
                       connectionStartTime := ul now }
    (s',
     (if s.hasLogCallback then
        [Event.logMsg (s.connectionName ++ " reconnecting (" ++
          toString s'.reconnectAttempts ++ "/" ++
          toString s'.maxReconnectAttempts ++ ")")]
      else []) ++
     [Event.reconnectCall reconnectResult] ++
     (if !reconnectResult && s.hasErrorCallback then
        [Event.errorMsg (s.connectionName ++ " reconnect attempt failed to start")]
      else []))
  else (s, [])

/-- The exhaustion phase of `loop()` (lines 155-161). -/
def exhaustPhase (s : AutoReconnect) (currentlyConnected : Bool) :
    AutoReconnect × List Event :=
  if decide (s.reconnectAttempts ≥ s.maxReconnectAttempts) &&
     !currentlyConnected && s.shouldReconnect then
    ({ s with shouldReconnect := false },
     if s.hasErrorCallback then
       [Event.errorMsg (s.connectionName ++ " auto-reconnect disabled after max attempts")]
     else [])
  else (s, [])

/-- Method `loop()` (lines 106-162): guard on callback presence, query the status
callback, run the three phases in source order, and concatenate the
callback invocations in the order the code makes them. -/
def loop (s : AutoReconnect) (now : Nat) (statusResult reconnectResult : Bool) :
    AutoReconnect × List Event :=
  if !s.hasStatusCallback || !s.hasReconnectCallback then
    (s, [])
  else
    let currentlyConnected := statusResult
    let p1 := statusPhase s currentlyConnected now
    let p2 := triggerPhase p1.1 currentlyConnected now reconnectResult
    let p3 := exhaustPhase p2.1 currentlyConnected
    (p3.1, Event.statusQuery statusResult :: (p1.2 ++ p2.2 ++ p3.2))

end AutoReconnect

/-- A host-side operation on the supervisor: one public method call,
together with the environment inputs it consumes. -/
inductive Op where
  | setMaxAttempts (n : Int)
  | setConnectionTimeout (ms : Nat)
  | setReconnectDelay (ms : Nat)
  | setConnectionName (name : String)
  | setReconnectCallback (present : Bool)
  | setStatusCallback (present : Bool)
  | setLogCallback (present : Bool)
  | setErrorCallback (present : Bool)
  | enable
  | disable
  | reset
  | attemptStarted (now : Nat)
  | statusChanged (connected : Bool) (now : Nat)
  | loopCall (now : Nat) (statusResult : Bool) (reconnectResult : Bool)
  deriving Repr, DecidableEq

/-- Apply one operation to the supervisor state. -/
def step (s : AutoReconnect) : Op → AutoReconnect × List Event
  | .setMaxAttempts n => (s.setMaxAttempts n, [])
  | .setConnectionTimeout ms => (s.setConnectionTimeout ms, [])
  | .setReconnectDelay ms => (s.setReconnectDelay ms, [])
  | .setConnectionName name => (s.setConnectionName name, [])
  | .setReconnectCallback p => (s.setReconnectCallback p, [])
  | .setStatusCallback p => (s.setStatusCallback p, [])
  | .setLogCallback p => (s.setLogCallback p, [])
  | .setErrorCallback p => (s.setErrorCallback p, [])
  | .enable => s.enable
  | .disable => s.disable
  | .reset => (s.reset, [])
  | .attemptStarted now => (s.onConnectionAttemptStarted now, [])
  | .statusChanged c now => s.onConnectionStatusChanged c now
  | .loopCall now sr rr => s.loop now sr rr

/-- Run a sequence of operations, concatenating all emitted events. -/
def runOps (s : AutoReconnect) : List Op → AutoReconnect × List Event
  | [] => (s, [])
  | op :: ops =>
    let p := step s op
    let q := runOps p.1 ops
    (q.1, p.2 ++ q.2)

/-- Run a sequence of `loop()` calls, the status callback returning `false`
at each: each list element gives the call's monotonic time and the value
returned by the reconnect callback.  The per-call event lists are kept
separate. -/
def runLoops (s : AutoReconnect) : List (Nat × Bool) → AutoReconnect × List (List Event)
  | [] => (s, [])
  | p :: ps =>
    let q := s.loop p.1 false p.2
    let r := runLoops q.1 ps
    (r.1, q.2 :: r.2)

/-- Does an event record an invocation of the reconnect callback? -/
def isReconnectCall : Event → Bool
  | .reconnectCall _ => true
  | _ => false

/-- The times of the `loop()` calls of a `runLoops` run in which the
reconnect callback was invoked. -/
def triggerTimes (s : AutoReconnect) : List (Nat × Bool) → List Nat
  | [] => []
  | p :: ps =>
    let q := s.loop p.1 false p.2
    if q.2.any isReconnectCall then p.1 :: triggerTimes q.1 ps
    else triggerTimes q.1 ps

/-- The exhaustion error event of a supervisor named `name`. -/
def exhaustionError (name : String) : Event :=
  Event.errorMsg (name ++ " auto-reconnect disabled after max attempts")

/-- A run is attempt-respecting when every `setMaxAttempts` call in it
supplies a value at least the attempt count current at that call. -/
def goodRun (s : AutoReconnect) : List Op → Bool
  | [] => true
  | op :: ops =>
    (match op with
     | Op.setMaxAttempts n => decide (s.reconnectAttempts ≤ n)
     | _ => true) && goodRun (step s op).1 ops

/-- The connection status observed by one operation, if it observes one:
an explicit `onConnectionStatusChanged` call observes its argument, and a
`loop()` call with both required callbacks present observes the value the
status callback returned. -/
def observedBy (s : AutoReconnect) : Op → Option Bool
  | Op.statusChanged c _ => some c
  | Op.loopCall _ sr _ =>
      if s.hasStatusCallback && s.hasReconnectCallback then some sr else none
  | _ => none

/-- The last connection status observed during a run, if any. -/
def runObs (s : AutoReconnect) : List Op → Option Bool
  | [] => none
  | op :: ops =>
    match runObs (step s op).1 ops with
    | some b => some b
    | none => observedBy s op

/-- The spec §8 scenario fixture: `maxAttempts = 2`, `reconnectDelayMs = 100`,
status and reconnect callbacks registered. -/
def c4Scenario : AutoReconnect :=
  ((((mkAutoReconnect "Connection").setMaxAttempts 2).setReconnectDelay
      100).setReconnectCallback true).setStatusCallback true

/-- A one-attempt fixture: `maxAttempts = 1`, `reconnectDelayMs = 100`,
status, reconnect and error callbacks registered. -/
def c3Scenario : AutoReconnect :=
  (((((mkAutoReconnect "Connection").setMaxAttempts 1).setReconnectDelay
      100).setReconnectCallback true).setStatusCallback true).setErrorCallback true

/-- An operation sequence that reaches a state with `enabled = false` and
`attemptCount > maxAttempts`: configure `maxAttempts = -1`, register the
two required callbacks, and poll once while disconnected. -/
def c7Ops : List Op :=
  [Op.setMaxAttempts (-1), Op.setStatusCallback true, Op.setReconnectCallback true,
   Op.loopCall 0 false true]

/-! ## Arithmetic helpers for `unsigned long` subtraction -/

lemma ulSub_ul_right (a b : Nat) : ulSub a (ul b) = ulSub a b := by
  unfold ulSub ul ulongMod
  omega

lemma ulSub_of_le {a b : Nat} (h : b ≤ a) : ulSub a b = (a - b) % ulongMod := by
  unfold ulSub ul ulongMod
  omega

lemma ulSub_small {a b d : Nat} (h : b ≤ a) (hd : d < ulongMod) (hab : a - b ≤ d) :
    ulSub a b = a - b := by
  unfold ulSub ul ulongMod at *
  omega

/-- The two error messages of `loop()` are distinct whatever the
connection name is. -/
lemma failMsg_ne_exhaustMsg (name : String) :
    (name ++ " reconnect attempt failed to start") ≠
      (name ++ " auto-reconnect disabled after max attempts") := by
  intro h
  have h2 := congrArg String.data h
  simp [String.data_append] at h2

namespace AutoReconnect

/-! ## Phase-level characterizations of `loop()` -/

lemma loop_not_ready {s : AutoReconnect} (now : Nat) (sr rr : Bool)
    (h : s.hasStatusCallback = false ∨ s.hasReconnectCallback = false) :
    s.loop now sr rr = (s, []) := by
  rcases h with h | h <;> simp [loop, h]

lemma loop_ready {s : AutoReconnect} (now : Nat) (sr rr : Bool)
    (hs : s.hasStatusCallback = true) (hr : s.hasReconnectCallback = true) :
    s.loop now sr rr =
      ((((s.statusPhase sr now).1.triggerPhase sr now rr).1.exhaustPhase sr).1,
       Event.statusQuery sr ::
         ((s.statusPhase sr now).2 ++
          ((s.statusPhase sr now).1.triggerPhase sr now rr).2 ++
          (((s.statusPhase sr now).1.triggerPhase sr now rr).1.exhaustPhase sr).2)) := by
  simp [loop, hs, hr]

lemma statusPhase_ff {s : AutoReconnect} (now : Nat) (h : s.wasConnected = false) :
    s.statusPhase false now = (s, []) := by
  simp [statusPhase, h]

lemma statusPhase_ft_en {s : AutoReconnect} (now : Nat) (h : s.wasConnected = true)
    (he : s.shouldReconnect = true) :
    s.statusPhase false now =
      ({ s with lastConnectAttempt := ul now, wasConnected := false },
       if s.hasLogCallback then
         [Event.logMsg (s.connectionName ++ " disconnected, will attempt reconnect")]
       else []) := by
  simp [statusPhase, onConnectionStatusChanged, h, he]

lemma statusPhase_ft_dis {s : AutoReconnect} (now : Nat) (h : s.wasConnected = true)
    (he : s.shouldReconnect = false) :
    s.statusPhase false now = ({ s with wasConnected := false }, []) := by
  simp [statusPhase, onConnectionStatusChanged, h, he]

lemma statusPhase_tt {s : AutoReconnect} (now : Nat) (h : s.wasConnected = true) :
    s.statusPhase true now = (s, []) := by
  simp [statusPhase, h]

lemma statusPhase_tf {s : AutoReconnect} (now : Nat) (h : s.wasConnected = false) :
    (s.statusPhase true now).1 =
      { s with reconnectAttempts := 0, connectionStartTime := 0, wasConnected := true } := by
  simp [statusPhase, onConnectionStatusChanged, h]

/-- The status-update phase only ever emits log messages. -/
lemma statusPhase_events_log {s : AutoReconnect} (c : Bool) (now : Nat) :
    ∀ e ∈ (s.statusPhase c now).2, ∃ m, e = Event.logMsg m := by
  intro e he
  simp only [statusPhase, onConnectionStatusChanged] at he
  split_ifs at he <;> simp_all

lemma triggerPhase_pos {s : AutoReconnect} {c : Bool} {now : Nat} (rr : Bool)
    (h : trigCond s c now = true) :
    s.triggerPhase c now rr =
      ({ s with reconnectAttempts := s.reconnectAttempts + 1,
                lastConnectAttempt := ul now,
                connectionStartTime := ul now },
       (if s.hasLogCallback then
          [Event.logMsg (s.connectionName ++ " reconnecting (" ++
            toString (s.reconnectAttempts + 1) ++ "/" ++
            toString s.maxReconnectAttempts ++ ")")]
        else []) ++
       [Event.reconnectCall rr] ++
       (if !rr && s.hasErrorCallback then
          [Event.errorMsg (s.connectionName ++ " reconnect attempt failed to start")]
        else [])) := by
  simp [triggerPhase, h]

lemma triggerPhase_neg {s : AutoReconnect} {c : Bool} {now : Nat} (rr : Bool)
    (h : trigCond s c now = false) :
    s.triggerPhase c now rr = (s, []) := by
  simp [triggerPhase, h]

lemma exhaustPhase_pos {s : AutoReconnect} (h1 : s.reconnectAttempts ≥ s.maxReconnectAttempts)
    (h2 : s.shouldReconnect = true) :
    s.exhaustPhase false =
      ({ s with shouldReconnect := false },
       if s.hasErrorCallback then [exhaustionError s.connectionName] else []) := by
  simp [exhaustPhase, exhaustionError, h1, h2]

lemma exhaustPhase_neg_attempts {s : AutoReconnect} (c : Bool)
    (h1 : s.reconnectAttempts < s.maxReconnectAttempts) :
    s.exhaustPhase c = (s, []) := by
  simp [exhaustPhase, not_le.mpr h1]

lemma exhaustPhase_neg_dis {s : AutoReconnect} (c : Bool) (h2 : s.shouldReconnect = false) :
    s.exhaustPhase c = (s, []) := by
  simp [exhaustPhase, h2]

lemma exhaustPhase_conn {s : AutoReconnect} : s.exhaustPhase true = (s, []) := by
  simp [exhaustPhase]

end AutoReconnect

lemma ulSub_ul_self (a : Nat) : ulSub a (ul a) = 0 := by
  unfold ulSub ul ulongMod
  omega

namespace AutoReconnect

lemma statusPhase_shape (s : AutoReconnect) (c : Bool) (now : Nat) :
    (s.statusPhase c now).1 = { s with wasConnected := c } ∨
    (s.statusPhase c now).1 =
      { s with reconnectAttempts := 0, connectionStartTime := 0, wasConnected := c } ∨
    (s.statusPhase c now).1 = { s with lastConnectAttempt := ul now, wasConnected := c } := by
  simp only [statusPhase, onConnectionStatusChanged]
  split_ifs <;> simp_all

lemma triggerPhase_shape (s : AutoReconnect) (c : Bool) (now : Nat) (rr : Bool) :
    (s.triggerPhase c now rr).1 = s ∨
    (s.triggerPhase c now rr).1 =
      { s with reconnectAttempts := s.reconnectAttempts + 1,
               lastConnectAttempt := ul now, connectionStartTime := ul now } := by
  simp only [triggerPhase]
  split_ifs <;> simp

lemma exhaustPhase_shape (s : AutoReconnect) (c : Bool) :
    (s.exhaustPhase c).1 = s ∨ (s.exhaustPhase c).1 = { s with shouldReconnect := false } := by
  simp only [exhaustPhase]
  split_ifs <;> simp

lemma loop_pres (s : AutoReconnect) (now : Nat) (sr rr : Bool) :
    ((s.loop now sr rr).1.maxReconnectAttempts = s.maxReconnectAttempts) ∧
    ((s.loop now sr rr).1.reconnectDelayMs = s.reconnectDelayMs) ∧
    ((s.loop now sr rr).1.connectionTimeoutMs = s.connectionTimeoutMs) ∧
    ((s.loop now sr rr).1.connectionName = s.connectionName) ∧
    ((s.loop now sr rr).1.hasReconnectCallback = s.hasReconnectCallback) ∧
    ((s.loop now sr rr).1.hasStatusCallback = s.hasStatusCallback) ∧
    ((s.loop now sr rr).1.hasLogCallback = s.hasLogCallback) ∧
    ((s.loop now sr rr).1.hasErrorCallback = s.hasErrorCallback) := by
  by_cases hs : s.hasStatusCallback = true
  · by_cases hr : s.hasReconnectCallback = true
    · rw [loop_ready now sr rr hs hr]
      rcases statusPhase_shape s sr now with h1 | h1 | h1 <;> rw [h1] <;>
        rcases triggerPhase_shape _ sr now rr with h2 | h2 <;> rw [h2] <;>
          rcases exhaustPhase_shape _ sr with h3 | h3 <;> rw [h3] <;> simp
    · rw [loop_not_ready now sr rr (Or.inr (by simpa using hr))]
      simp
  · rw [loop_not_ready now sr rr (Or.inl (by simpa using hs))]
    simp

lemma loop_wasConnected (s : AutoReconnect) (now : Nat) (sr rr : Bool)
    (hs : s.hasStatusCallback = true) (hr : s.hasReconnectCallback = true) :
    (s.loop now sr rr).1.wasConnected = sr := by
  rw [loop_ready now sr rr hs hr]
  rcases statusPhase_shape s sr now with h1 | h1 | h1 <;> rw [h1] <;>
    rcases triggerPhase_shape _ sr now rr with h2 | h2 <;> rw [h2] <;>
      rcases exhaustPhase_shape _ sr with h3 | h3 <;> rw [h3] <;> simp

lemma loop_sr_mono (s : AutoReconnect) (now : Nat) (sr rr : Bool)
    (h : (s.loop now sr rr).1.shouldReconnect = true) : s.shouldReconnect = true := by
  by_cases hs : s.hasStatusCallback = true
  · by_cases hr : s.hasReconnectCallback = true
    · rw [loop_ready now sr rr hs hr] at h
      rcases statusPhase_shape s sr now with h1 | h1 | h1 <;> rw [h1] at h <;>
        rcases triggerPhase_shape _ sr now rr with h2 | h2 <;> rw [h2] at h <;>
          rcases exhaustPhase_shape _ sr with h3 | h3 <;> rw [h3] at h <;> simp_all
    · rw [loop_not_ready now sr rr (Or.inr (by simpa using hr))] at h
      exact h
  · rw [loop_not_ready now sr rr (Or.inl (by simpa using hs))] at h
    exact h

end AutoReconnect

namespace AutoReconnect

lemma trigCond_last_now {s : AutoReconnect} {now : Nat} (h : s.lastConnectAttempt = ul now) :
    trigCond s false now = false := by
  simp [trigCond, h, ulSub_ul_self]

lemma trigCond_not_sr {s : AutoReconnect} {c : Bool} {now : Nat}
    (h : s.shouldReconnect = false) : trigCond s c now = false := by
  simp [trigCond, h]

lemma trigCond_sr {s : AutoReconnect} {c : Bool} {now : Nat} (h : trigCond s c now = true) :
    s.shouldReconnect = true := by
  simp [trigCond] at h
  exact h.1.1.2

lemma trigCond_lt {s : AutoReconnect} {c : Bool} {now : Nat} (h : trigCond s c now = true) :
    s.reconnectAttempts < s.maxReconnectAttempts := by
  simp [trigCond] at h
  exact h.1.2

lemma trigCond_elapsed {s : AutoReconnect} {c : Bool} {now : Nat} (h : trigCond s c now = true) :
    ulSub now s.lastConnectAttempt > s.reconnectDelayMs := by
  simp [trigCond] at h
  exact h.2

end AutoReconnect

namespace AutoReconnect

set_option maxHeartbeats 1000000 in
lemma loop_false_spec (s : AutoReconnect) (now : Nat) (rr : Bool)
    (hs : s.hasStatusCallback = true) (hr : s.hasReconnectCallback = true) :
    ((s.loop now false rr).1.wasConnected = false) ∧
    ((s.loop now false rr).1.reconnectAttempts =
       s.reconnectAttempts +
         (if (s.loop now false rr).2.any isReconnectCall then 1 else 0)) ∧
    ((s.loop now false rr).2.any isReconnectCall = true →
       (s.loop now false rr).1.lastConnectAttempt = ul now) ∧
    ((s.loop now false rr).2.any isReconnectCall = false → s.wasConnected = false →
       (s.loop now false rr).1.lastConnectAttempt = s.lastConnectAttempt) ∧
    (s.wasConnected = false →
       (s.loop now false rr).2.any isReconnectCall = trigCond s false now) ∧
    ((s.loop now false rr).1.shouldReconnect = true →
       (s.loop now false rr).1.reconnectAttempts <
         (s.loop now false rr).1.maxReconnectAttempts) ∧
    ((s.loop now false rr).2.count (exhaustionError s.connectionName) =
       (if s.shouldReconnect = true ∧ (s.loop now false rr).1.shouldReconnect = false ∧
            s.hasErrorCallback = true then 1 else 0)) ∧
    (exhaustionError s.connectionName ∈ (s.loop now false rr).2 →
       ((s.loop now false rr).2.any isReconnectCall = true ∨
         s.maxReconnectAttempts ≤ s.reconnectAttempts)) ∧
    ((s.loop now false rr).2.any isReconnectCall = true →
       s.reconnectAttempts < s.maxReconnectAttempts ∧ s.shouldReconnect = true) := by
  have hne := failMsg_ne_exhaustMsg s.connectionName
  rw [loop_ready now false rr hs hr]
  by_cases hwc : s.wasConnected = true
  · by_cases hsr : s.shouldReconnect = true
    · rw [statusPhase_ft_en now hwc hsr]
      rw [triggerPhase_neg rr (trigCond_last_now (by simp))]
      by_cases hge : s.reconnectAttempts ≥ s.maxReconnectAttempts
      · rw [exhaustPhase_pos (by simpa using hge) (by simpa using hsr)]
        simp_all [isReconnectCall, exhaustionError, List.count_append, List.count_cons]
        split_ifs <;> simp_all [List.count_cons, List.count_nil, beq_iff_eq]
      · rw [exhaustPhase_neg_attempts _ (by simpa using not_le.mp hge)]
        simp_all [isReconnectCall, exhaustionError, List.count_append, List.count_cons]
        split_ifs <;> simp_all [List.count_cons, List.count_nil, beq_iff_eq]
    · rw [statusPhase_ft_dis now hwc (by simpa using hsr)]
      rw [triggerPhase_neg rr (trigCond_not_sr (by simpa using hsr))]
      rw [exhaustPhase_neg_dis _ (by simpa using hsr)]
      simp_all [isReconnectCall, exhaustionError, List.count_cons]
  · have hwc' : s.wasConnected = false := by simpa using hwc
    rw [statusPhase_ff now hwc']
    by_cases htc : trigCond s false now = true
    · rw [triggerPhase_pos rr htc]
      have hsr := trigCond_sr htc
      have hlt2 := trigCond_lt htc
      by_cases hge : s.reconnectAttempts + 1 ≥ s.maxReconnectAttempts
      · rw [exhaustPhase_pos (by simpa using hge) (by simpa using hsr)]
        simp_all [isReconnectCall, exhaustionError, List.count_append, List.count_cons]
        split_ifs <;> simp_all [List.count_cons, List.count_nil, beq_iff_eq]
      · rw [exhaustPhase_neg_attempts _ (by simpa using not_le.mp hge)]
        simp_all [isReconnectCall, exhaustionError, List.count_append, List.count_cons]
        split_ifs <;> simp_all [List.count_cons, List.count_nil, beq_iff_eq]
    · rw [triggerPhase_neg rr (by simpa using htc)]
      by_cases hsr : s.shouldReconnect = true
      · by_cases hge : s.reconnectAttempts ≥ s.maxReconnectAttempts
        · rw [exhaustPhase_pos hge hsr]
          simp_all [isReconnectCall, exhaustionError, List.count_cons]
          split_ifs <;> simp_all [List.count_cons, List.count_nil, beq_iff_eq]
        · rw [exhaustPhase_neg_attempts _ (not_le.mp hge)]
          simp_all [isReconnectCall, exhaustionError, List.count_cons]
      · rw [exhaustPhase_neg_dis _ (by simpa using hsr)]
        simp_all [isReconnectCall, exhaustionError, List.count_cons]

end AutoReconnect

/-! ## Run-level lemmas for sequences of always-disconnected `loop()` calls -/

lemma runLoops_pres (s : AutoReconnect) (ps : List (Nat × Bool)) :
    ((runLoops s ps).1.maxReconnectAttempts = s.maxReconnectAttempts) ∧
    ((runLoops s ps).1.reconnectDelayMs = s.reconnectDelayMs) ∧
    ((runLoops s ps).1.connectionTimeoutMs = s.connectionTimeoutMs) ∧
    ((runLoops s ps).1.connectionName = s.connectionName) ∧
    ((runLoops s ps).1.hasReconnectCallback = s.hasReconnectCallback) ∧
    ((runLoops s ps).1.hasStatusCallback = s.hasStatusCallback) ∧
    ((runLoops s ps).1.hasLogCallback = s.hasLogCallback) ∧
    ((runLoops s ps).1.hasErrorCallback = s.hasErrorCallback) := by
  induction ps generalizing s with
  | nil => simp [runLoops]
  | cons p ps ih =>
    simp only [runLoops]
    obtain ⟨a1, a2, a3, a4, a5, a6, a7, a8⟩ := AutoReconnect.loop_pres s p.1 false p.2
    obtain ⟨b1, b2, b3, b4, b5, b6, b7, b8⟩ := ih (s.loop p.1 false p.2).1
    exact ⟨b1.trans a1, b2.trans a2, b3.trans a3, b4.trans a4, b5.trans a5,
      b6.trans a6, b7.trans a7, b8.trans a8⟩

lemma runLoops_sr_mono (s : AutoReconnect) (ps : List (Nat × Bool))
    (h : (runLoops s ps).1.shouldReconnect = true) : s.shouldReconnect = true := by
  induction ps generalizing s with
  | nil => simpa [runLoops] using h
  | cons p ps ih =>
    simp only [runLoops] at h
    exact AutoReconnect.loop_sr_mono s p.1 false p.2 (ih (s.loop p.1 false p.2).1 h)

lemma runLoops_attempts (s : AutoReconnect) (ps : List (Nat × Bool))
    (hs : s.hasStatusCallback = true) (hr : s.hasReconnectCallback = true) :
    (runLoops s ps).1.reconnectAttempts =
      s.reconnectAttempts + ((triggerTimes s ps).length : Int) := by
  induction ps generalizing s with
  | nil => simp [runLoops, triggerTimes]
  | cons p ps ih =>
    simp only [runLoops, triggerTimes]
    obtain ⟨-, hatt, -, -, -, -, -, -, -⟩ := AutoReconnect.loop_false_spec s p.1 p.2 hs hr
    obtain ⟨-, -, -, -, hr', hs', -, -⟩ := AutoReconnect.loop_pres s p.1 false p.2
    have ih' := ih (s.loop p.1 false p.2).1 (hs'.trans hs) (hr'.trans hr)
    by_cases hfire : (s.loop p.1 false p.2).2.any isReconnectCall = true
    · simp only [hfire, if_true] at hatt ⊢
      simp [ih', hatt]
      omega
    · simp only [Bool.not_eq_true] at hfire
      simp only [hfire, if_false, Bool.false_eq_true] at hatt ⊢
      simp [ih', hatt]

lemma runLoops_last_inv (s : AutoReconnect) (ps : List (Nat × Bool))
    (hs : s.hasStatusCallback = true) (hr : s.hasReconnectCallback = true)
    (hne : ps ≠ []) (hsr : (runLoops s ps).1.shouldReconnect = true) :
    (runLoops s ps).1.reconnectAttempts < (runLoops s ps).1.maxReconnectAttempts := by
  induction ps generalizing s with
  | nil => exact absurd rfl hne
  | cons p ps ih =>
    obtain ⟨-, -, -, -, hr', hs', -, -⟩ := AutoReconnect.loop_pres s p.1 false p.2
    rcases List.eq_nil_or_concat ps with h0 | -
    · subst h0
      simp only [runLoops] at hsr ⊢
      obtain ⟨-, -, -, -, -, hlt, -, -, -⟩ := AutoReconnect.loop_false_spec s p.1 p.2 hs hr
      exact hlt (by simpa [runLoops] using hsr)
    · by_cases h0 : ps = []
      · subst h0
        simp only [runLoops] at hsr ⊢
        obtain ⟨-, -, -, -, -, hlt, -, -, -⟩ := AutoReconnect.loop_false_spec s p.1 p.2 hs hr
        exact hlt (by simpa [runLoops] using hsr)
      · simp only [runLoops] at hsr ⊢
        exact ih (s.loop p.1 false p.2).1 (hs'.trans hs) (hr'.trans hr) h0 hsr

lemma runLoops_exhaust_count (s : AutoReconnect) (ps : List (Nat × Bool))
    (hs : s.hasStatusCallback = true) (hr : s.hasReconnectCallback = true)
    (he : s.hasErrorCallback = true) :
    ((runLoops s ps).2.map (List.count (exhaustionError s.connectionName))).sum =
      (if s.shouldReconnect = true ∧ (runLoops s ps).1.shouldReconnect = false
       then 1 else 0) := by
  induction ps generalizing s with
  | nil =>
    simp only [runLoops, List.map_nil, List.sum_nil]
    split_ifs with h
    · rcases h with ⟨h1, h2⟩
      rw [h1] at h2
      simp at h2
    · rfl
  | cons p ps ih =>
    simp only [runLoops, List.map_cons, List.sum_cons]
    obtain ⟨-, -, -, -, -, -, hcount, -, -⟩ := AutoReconnect.loop_false_spec s p.1 p.2 hs hr
    obtain ⟨-, -, -, a4, hr', hs', -, he'⟩ := AutoReconnect.loop_pres s p.1 false p.2
    have ih' := ih (s.loop p.1 false p.2).1 (hs'.trans hs) (hr'.trans hr) (he'.trans he)
    rw [a4] at ih'
    by_cases hsr0 : s.shouldReconnect = true
    · by_cases hq : (s.loop p.1 false p.2).1.shouldReconnect = true
      · rw [hcount, ih']
        simp [hsr0, hq]
      · have hq' : (s.loop p.1 false p.2).1.shouldReconnect = false := by
          simpa using hq
        have hfin : (runLoops (s.loop p.1 false p.2).1 ps).1.shouldReconnect = false := by
          by_contra hc
          exact hq (runLoops_sr_mono _ ps (by simpa using hc))
        rw [hcount, ih']
        simp [hsr0, hq', he, hfin]
    · have hsr0' : s.shouldReconnect = false := by simpa using hsr0
      have hq' : (s.loop p.1 false p.2).1.shouldReconnect = false := by
        by_contra hc
        exact hsr0 (AutoReconnect.loop_sr_mono s p.1 false p.2 (by simpa using hc))
      rw [hcount, ih']
      simp [hsr0', hq']

lemma runLoops_err_in_trigger (s : AutoReconnect) (ps : List (Nat × Bool))
    (hs : s.hasStatusCallback = true) (hr : s.hasReconnectCallback = true)
    (hinv : s.shouldReconnect = true → s.reconnectAttempts < s.maxReconnectAttempts) :
    ∀ evs ∈ (runLoops s ps).2, exhaustionError s.connectionName ∈ evs →
      evs.any isReconnectCall = true := by
  induction ps generalizing s with
  | nil => simp [runLoops]
  | cons p ps ih =>
    intro evs hm herr
    simp only [runLoops, List.mem_cons] at hm
    obtain ⟨-, -, -, -, -, hlt, hcount, himp, -⟩ := AutoReconnect.loop_false_spec s p.1 p.2 hs hr
    obtain ⟨-, -, -, a4, hr', hs', -, -⟩ := AutoReconnect.loop_pres s p.1 false p.2
    rcases hm with rfl | hm
    · rcases himp herr with hfire | hge
      · exact hfire
      · have hpos : List.count (exhaustionError s.connectionName) (s.loop p.1 false p.2).2 ≠ 0 := by
          intro h0
          exact (List.count_eq_zero.mp h0) herr
        rw [hcount] at hpos
        split_ifs at hpos with hcond
        · have := hinv hcond.1
          omega
        · exact absurd rfl hpos
    · have ih' := ih (s.loop p.1 false p.2).1 (hs'.trans hs) (hr'.trans hr) hlt
      rw [a4] at ih'
      exact ih' evs hm herr

/-! ## Spacing of reconnect triggers -/

lemma triggerTimes_sublist (s : AutoReconnect) (ps : List (Nat × Bool)) :
    List.Sublist (triggerTimes s ps) (ps.map Prod.fst) := by
  induction ps generalizing s with
  | nil => simp [triggerTimes]
  | cons p ps ih =>
    simp only [triggerTimes, List.map_cons]
    by_cases hfire : ((s.loop p.1 false p.2).2.any isReconnectCall) = true
    · simp only [hfire, if_true]
      exact (ih (s.loop p.1 false p.2).1).cons₂ p.1
    · simp only [hfire, if_false]
      exact (ih (s.loop p.1 false p.2).1).cons p.1

lemma gap_first (s : AutoReconnect) (ps : List (Nat × Bool)) (t0 d : Nat)
    (hs : s.hasStatusCallback = true) (hr : s.hasReconnectCallback = true)
    (hlast : s.lastConnectAttempt = ul t0) (hwc : s.wasConnected = false)
    (hts : ∀ p ∈ ps, t0 ≤ p.1) (hd : s.reconnectDelayMs = d) (hdM : d < ulongMod) :
    ∀ f ∈ (triggerTimes s ps).head?, d < f - t0 := by
  induction ps generalizing s with
  | nil => simp [triggerTimes]
  | cons p ps ih =>
    obtain ⟨-, -, hlast', hkeep, hiff, -, -, -, -⟩ := AutoReconnect.loop_false_spec s p.1 p.2 hs hr
    obtain ⟨-, a2, -, -, hr', hs', -, -⟩ := AutoReconnect.loop_pres s p.1 false p.2
    obtain ⟨hwc', -, -, -, -, -, -, -, -⟩ := AutoReconnect.loop_false_spec s p.1 p.2 hs hr
    by_cases hfire : ((s.loop p.1 false p.2).2.any isReconnectCall) = true
    · simp only [triggerTimes, hfire, if_true, List.head?_cons]
      intro f hf
      rw [Option.mem_some_iff] at hf
      subst hf
      have htc : AutoReconnect.trigCond s false p.1 = true := by
        rw [hiff hwc] at hfire
        exact hfire
      have helapsed := AutoReconnect.trigCond_elapsed htc
      rw [hlast, ulSub_ul_right, hd] at helapsed
      have ht0 : t0 ≤ p.1 := hts p (List.mem_cons_self p ps)
      by_contra hcon
      push_neg at hcon
      rw [ulSub_small ht0 hdM (by omega)] at helapsed
      omega
    · simp only [triggerTimes, hfire, if_false]
      have hfire' : ((s.loop p.1 false p.2).2.any isReconnectCall) = false := by
        simpa using hfire
      exact ih (s.loop p.1 false p.2).1 (hs'.trans hs) (hr'.trans hr)
        ((hkeep hfire' hwc).trans hlast) hwc'
        (fun q hq => hts q (List.mem_cons_of_mem p hq)) (a2.trans hd)

lemma trigger_chain (s : AutoReconnect) (ps : List (Nat × Bool)) (d : Nat)
    (hs : s.hasStatusCallback = true) (hr : s.hasReconnectCallback = true)
    (hd : s.reconnectDelayMs = d) (hdM : d < ulongMod)
    (hmono : (ps.map Prod.fst).Pairwise (· ≤ ·)) :
    List.Chain' (fun a b => d < b - a) (triggerTimes s ps) := by
  induction ps generalizing s with
  | nil => simp [triggerTimes]
  | cons p ps ih =>
    obtain ⟨hwc', -, hlast', -, -, -, -, -, -⟩ := AutoReconnect.loop_false_spec s p.1 p.2 hs hr
    obtain ⟨-, a2, -, -, hr', hs', -, -⟩ := AutoReconnect.loop_pres s p.1 false p.2
    rw [List.map_cons, List.pairwise_cons] at hmono
    by_cases hfire : ((s.loop p.1 false p.2).2.any isReconnectCall) = true
    · simp only [triggerTimes, hfire, if_true]
      rw [List.chain'_cons']
      constructor
      · exact gap_first (s.loop p.1 false p.2).1 ps p.1 d (hs'.trans hs) (hr'.trans hr)
          (hlast' hfire) hwc'
          (fun q hq => hmono.1 q.1 (List.mem_map_of_mem Prod.fst hq)) (a2.trans hd) hdM
      · exact ih (s.loop p.1 false p.2).1 (hs'.trans hs) (hr'.trans hr) (a2.trans hd) hmono.2
    · simp only [triggerTimes, hfire, if_false]
      exact ih (s.loop p.1 false p.2).1 (hs'.trans hs) (hr'.trans hr) (a2.trans hd) hmono.2

lemma pairwise_of_chain_sorted {d : Nat} :
    ∀ {l : List Nat}, l.Pairwise (· ≤ ·) → List.Chain' (fun a b => d < b - a) l →
      l.Pairwise (fun a b => ¬ (b - a < d)) := by
  intro l
  induction l with
  | nil => simp
  | cons a l ih =>
    intro hp hc
    rw [List.pairwise_cons] at hp ⊢
    refine ⟨?_, ih hp.2 hc.tail⟩
    intro x hx
    cases l with
    | nil => simp at hx
    | cons b l2 =>
      have hab : d < b - a := (List.chain'_cons.mp hc).1
      have hbx : b ≤ x := by
        rcases List.mem_cons.mp hx with rfl | hx2
        · exact le_refl x
        · exact (List.pairwise_cons.mp hp.2).1 x hx2
      omega

/-! ## Helpers for trigger-call details and event lists -/

namespace AutoReconnect

lemma onChanged_wc (s : AutoReconnect) (c : Bool) (now : Nat) :
    (s.onConnectionStatusChanged c now).1.wasConnected = c := by
  simp only [onConnectionStatusChanged]
  split_ifs <;> simp

lemma exhaustPhase_events (s : AutoReconnect) (c : Bool) :
    (s.exhaustPhase c).2 = [] ∨ (s.exhaustPhase c).2 = [exhaustionError s.connectionName] := by
  simp only [exhaustPhase, exhaustionError]
  split_ifs <;> simp

lemma triggerPhase_attempts_le {s : AutoReconnect} (c : Bool) (now : Nat) (rr : Bool)
    (h1 : 0 ≤ s.reconnectAttempts) (h2 : s.reconnectAttempts ≤ s.maxReconnectAttempts) :
    0 ≤ (s.triggerPhase c now rr).1.reconnectAttempts ∧
      (s.triggerPhase c now rr).1.reconnectAttempts ≤
        (s.triggerPhase c now rr).1.maxReconnectAttempts := by
  by_cases h : trigCond s c now = true
  · rw [triggerPhase_pos rr h]
    have := trigCond_lt h
    constructor <;> simp <;> omega
  · rw [triggerPhase_neg rr (by simpa using h)]
    exact ⟨h1, h2⟩

lemma loop_inv (s : AutoReconnect) (now : Nat) (sr rr : Bool)
    (h1 : 0 ≤ s.reconnectAttempts) (h2 : s.reconnectAttempts ≤ s.maxReconnectAttempts) :
    0 ≤ (s.loop now sr rr).1.reconnectAttempts ∧
      (s.loop now sr rr).1.reconnectAttempts ≤ (s.loop now sr rr).1.maxReconnectAttempts := by
  by_cases hs : s.hasStatusCallback = true
  · by_cases hr : s.hasReconnectCallback = true
    · rw [loop_ready now sr rr hs hr]
      have hsp : 0 ≤ (s.statusPhase sr now).1.reconnectAttempts ∧
          (s.statusPhase sr now).1.reconnectAttempts ≤
            (s.statusPhase sr now).1.maxReconnectAttempts := by
        rcases statusPhase_shape s sr now with h | h | h <;> rw [h] <;>
          constructor <;> simp <;> omega
      have htp := triggerPhase_attempts_le sr now rr hsp.1 hsp.2
      rcases exhaustPhase_shape ((s.statusPhase sr now).1.triggerPhase sr now rr).1 sr
        with h | h <;> rw [h] <;> exact ⟨htp.1, htp.2⟩
    · rw [loop_not_ready now sr rr (Or.inr (by simpa using hr))]
      exact ⟨h1, h2⟩
  · rw [loop_not_ready now sr rr (Or.inl (by simpa using hs))]
    exact ⟨h1, h2⟩

end AutoReconnect

lemma inv_step (s : AutoReconnect) (op : Op)
    (h1 : 0 ≤ s.reconnectAttempts) (h2 : s.reconnectAttempts ≤ s.maxReconnectAttempts)
    (hop : ∀ n, op = Op.setMaxAttempts n → s.reconnectAttempts ≤ n) :
    0 ≤ (step s op).1.reconnectAttempts ∧
      (step s op).1.reconnectAttempts ≤ (step s op).1.maxReconnectAttempts := by
  cases op with
  | setMaxAttempts n =>
    exact ⟨by simpa [step, AutoReconnect.setMaxAttempts] using h1,
           by simpa [step, AutoReconnect.setMaxAttempts] using hop n rfl⟩
  | setConnectionTimeout ms => exact ⟨by simpa [step, AutoReconnect.setConnectionTimeout] using h1,
      by simpa [step, AutoReconnect.setConnectionTimeout] using h2⟩
  | setReconnectDelay ms => exact ⟨by simpa [step, AutoReconnect.setReconnectDelay] using h1,
      by simpa [step, AutoReconnect.setReconnectDelay] using h2⟩
  | setConnectionName nm => exact ⟨by simpa [step, AutoReconnect.setConnectionName] using h1,
      by simpa [step, AutoReconnect.setConnectionName] using h2⟩
  | setReconnectCallback p => exact ⟨by simpa [step, AutoReconnect.setReconnectCallback] using h1,
      by simpa [step, AutoReconnect.setReconnectCallback] using h2⟩
  | setStatusCallback p => exact ⟨by simpa [step, AutoReconnect.setStatusCallback] using h1,
      by simpa [step, AutoReconnect.setStatusCallback] using h2⟩
  | setLogCallback p => exact ⟨by simpa [step, AutoReconnect.setLogCallback] using h1,
      by simpa [step, AutoReconnect.setLogCallback] using h2⟩
  | setErrorCallback p => exact ⟨by simpa [step, AutoReconnect.setErrorCallback] using h1,
      by simpa [step, AutoReconnect.setErrorCallback] using h2⟩
  | enable =>
    refine ⟨by simp [step, AutoReconnect.enable], by simp [step, AutoReconnect.enable]; omega⟩
  | disable => exact ⟨by simpa [step, AutoReconnect.disable] using h1,
      by simpa [step, AutoReconnect.disable] using h2⟩
  | reset =>
    refine ⟨by simp [step, AutoReconnect.reset], by simp [step, AutoReconnect.reset]; omega⟩
  | attemptStarted now => exact ⟨by simpa [step, AutoReconnect.onConnectionAttemptStarted] using h1,
      by simpa [step, AutoReconnect.onConnectionAttemptStarted] using h2⟩
  | statusChanged c now =>
    simp only [step, AutoReconnect.onConnectionStatusChanged]
    split_ifs <;> constructor <;> simp <;> omega
  | loopCall now sr rr => exact AutoReconnect.loop_inv s now sr rr h1 h2

lemma inv_run (s : AutoReconnect) (ops : List Op) (hg : goodRun s ops = true)
    (h1 : 0 ≤ s.reconnectAttempts) (h2 : s.reconnectAttempts ≤ s.maxReconnectAttempts) :
    0 ≤ (runOps s ops).1.reconnectAttempts ∧
      (runOps s ops).1.reconnectAttempts ≤ (runOps s ops).1.maxReconnectAttempts := by
  induction ops generalizing s with
  | nil => exact ⟨h1, h2⟩
  | cons op ops ih =>
    simp only [goodRun, Bool.and_eq_true] at hg
    have hstep := inv_step s op h1 h2 (by
      intro n hn
      subst hn
      simpa using hg.1)
    simp only [runOps]
    exact ih (step s op).1 hg.2 hstep.1 hstep.2

lemma obs_step_some (s : AutoReconnect) (op : Op) (b : Bool)
    (h : observedBy s op = some b) : (step s op).1.wasConnected = b := by
  cases op with
  | statusChanged c now =>
    simp only [observedBy, Option.some_inj] at h
    subst h
    exact AutoReconnect.onChanged_wc s c now
  | loopCall now sr rr =>
    simp only [observedBy] at h
    split_ifs at h with hflags
    · simp only [Option.some_inj] at h
      subst h
      rw [Bool.and_eq_true] at hflags
      exact AutoReconnect.loop_wasConnected s now sr rr hflags.1 hflags.2
  | setMaxAttempts n => simp [observedBy] at h
  | setConnectionTimeout ms => simp [observedBy] at h
  | setReconnectDelay ms => simp [observedBy] at h
  | setConnectionName nm => simp [observedBy] at h
  | setReconnectCallback p => simp [observedBy] at h
  | setStatusCallback p => simp [observedBy] at h
  | setLogCallback p => simp [observedBy] at h
  | setErrorCallback p => simp [observedBy] at h
  | enable => simp [observedBy] at h
  | disable => simp [observedBy] at h
  | reset => simp [observedBy] at h
  | attemptStarted now => simp [observedBy] at h

lemma obs_step_none (s : AutoReconnect) (op : Op)
    (h : observedBy s op = none) : (step s op).1.wasConnected = s.wasConnected := by
  cases op with
  | statusChanged c now => simp [observedBy] at h
  | loopCall now sr rr =>
    simp only [observedBy] at h
    split_ifs at h with hflags
    have hflags' : s.hasStatusCallback = false ∨ s.hasReconnectCallback = false := by
      by_contra hc
      push_neg at hc
      simp [hc.1, hc.2] at hflags
    simp only [step]
    rw [AutoReconnect.loop_not_ready now sr rr hflags']
  | setMaxAttempts n => simp [step, AutoReconnect.setMaxAttempts]
  | setConnectionTimeout ms => simp [step, AutoReconnect.setConnectionTimeout]
  | setReconnectDelay ms => simp [step, AutoReconnect.setReconnectDelay]
  | setConnectionName nm => simp [step, AutoReconnect.setConnectionName]
  | setReconnectCallback p => simp [step, AutoReconnect.setReconnectCallback]
  | setStatusCallback p => simp [step, AutoReconnect.setStatusCallback]
  | setLogCallback p => simp [step, AutoReconnect.setLogCallback]
  | setErrorCallback p => simp [step, AutoReconnect.setErrorCallback]
  | enable => simp [step, AutoReconnect.enable]
  | disable => simp [step, AutoReconnect.disable]
  | reset => simp [step, AutoReconnect.reset]
  | attemptStarted now => simp [step, AutoReconnect.onConnectionAttemptStarted]

lemma obs_run (s : AutoReconnect) (ops : List Op) :
    (∀ b, runObs s ops = some b → (runOps s ops).1.wasConnected = b) ∧
    (runObs s ops = none → (runOps s ops).1.wasConnected = s.wasConnected) := by
  induction ops generalizing s with
  | nil => simp [runObs, runOps]
  | cons op ops ih =>
    obtain ⟨ihs, ihn⟩ := ih (step s op).1
    constructor
    · intro b hb
      simp only [runObs] at hb
      simp only [runOps]
      cases hro : runObs (step s op).1 ops with
      | some c =>
        rw [hro] at hb
        simp only [Option.some_inj] at hb
        subst hb
        exact ihs c hro
      | none =>
        rw [hro] at hb
        simp only at hb
        rw [ihn hro]
        exact obs_step_some s op b hb
    · intro hn
      simp only [runObs] at hn
      simp only [runOps]
      cases hro : runObs (step s op).1 ops with
      | some c => rw [hro] at hn; simp at hn
      | none =>
        rw [hro] at hn
        simp only at hn
        rw [ihn hro]
        exact obs_step_none s op hn

namespace AutoReconnect

set_option maxHeartbeats 1000000 in
lemma loop_trigger_details (s : AutoReconnect) (now : Nat) (rr : Bool)
    (hs : s.hasStatusCallback = true) (hr : s.hasReconnectCallback = true)
    (hfire : (s.loop now false rr).2.any isReconnectCall = true) :
    (s.loop now false rr).1.connectionStartTime = ul now ∧
    (s.loop now false rr).1.lastConnectAttempt = ul now ∧
    ((s.loop now false rr).2.count
        (Event.errorMsg (s.connectionName ++ " reconnect attempt failed to start")) =
      (if rr = false ∧ s.hasErrorCallback = true then 1 else 0)) := by
  have hne := failMsg_ne_exhaustMsg s.connectionName
  rw [loop_ready now false rr hs hr] at hfire ⊢
  by_cases hwc : s.wasConnected = true
  · by_cases hsr : s.shouldReconnect = true
    · rw [statusPhase_ft_en now hwc hsr] at hfire ⊢
      rw [triggerPhase_neg rr (trigCond_last_now (by simp))] at hfire ⊢
      exfalso
      rcases exhaustPhase_events
          ({ s with lastConnectAttempt := ul now, wasConnected := false }) false with h | h <;>
        rw [h] at hfire <;>
          by_cases hl : s.hasLogCallback = true <;>
            simp [hl, isReconnectCall, exhaustionError] at hfire
    · rw [statusPhase_ft_dis now hwc (by simpa using hsr)] at hfire ⊢
      rw [triggerPhase_neg rr (trigCond_not_sr (by simpa using hsr))] at hfire ⊢
      rw [exhaustPhase_neg_dis _ (by simpa using hsr)] at hfire ⊢
      simp_all [isReconnectCall]
  · have hwc' : s.wasConnected = false := by simpa using hwc
    rw [statusPhase_ff now hwc'] at hfire ⊢
    by_cases htc : trigCond s false now = true
    · rw [triggerPhase_pos rr htc] at hfire ⊢
      have hsr := trigCond_sr htc
      by_cases hge : s.reconnectAttempts + 1 ≥ s.maxReconnectAttempts
      · rw [exhaustPhase_pos (by simpa using hge) (by simpa using hsr)]
        simp_all [isReconnectCall, exhaustionError, List.count_append, List.count_cons]
        split_ifs <;> simp_all [List.count_cons, List.count_nil, beq_iff_eq]
      · rw [exhaustPhase_neg_attempts _ (by simpa using not_le.mp hge)]
        simp_all [isReconnectCall, exhaustionError, List.count_append, List.count_cons]
        split_ifs <;> simp_all [List.count_cons, List.count_nil, beq_iff_eq]
    · rw [triggerPhase_neg rr (by simpa using htc)] at hfire ⊢
      exfalso
      rcases exhaustPhase_events s false with h | h <;>
        rw [h] at hfire <;>
          by_cases hl : s.hasLogCallback = true <;>
            simp [hl, isReconnectCall, exhaustionError] at hfire

end AutoReconnect

namespace AutoReconnect

/-- The reconnect callback is invoked during `loop()` exactly when the
guard of lines 132-134 holds for the state reached after the internal
status update (spec §4.1 step 3 precedes step 4). -/
lemma loop_trigger_iff (s : AutoReconnect) (now : Nat) (sr rr : Bool)
    (hs : s.hasStatusCallback = true) (hr : s.hasReconnectCallback = true) :
    Event.reconnectCall rr ∈ (s.loop now sr rr).2 ↔
      (sr = false ∧ (s.statusPhase sr now).1.shouldReconnect = true ∧
       (s.statusPhase sr now).1.reconnectAttempts <
         (s.statusPhase sr now).1.maxReconnectAttempts ∧
       ulSub now (s.statusPhase sr now).1.lastConnectAttempt >
         (s.statusPhase sr now).1.reconnectDelayMs) := by
  rw [loop_ready now sr rr hs hr]
  by_cases htc : trigCond (s.statusPhase sr now).1 sr now = true
  · rw [triggerPhase_pos rr htc]
    have htc' := htc
    simp only [trigCond, Bool.and_eq_true, Bool.not_eq_eq_eq_not, Bool.not_true,
      decide_eq_true_eq] at htc'
    constructor
    · intro _
      refine ⟨?_, htc'.1.1.2, htc'.1.2, htc'.2⟩
      have := htc'.1.1.1
      simp at this
      exact this
    · intro _
      simp
  · rw [triggerPhase_neg rr (by simpa using htc)]
    constructor
    · intro hmem
      exfalso
      have hlog := statusPhase_events_log (s := s) sr now
      rcases exhaustPhase_events (s.statusPhase sr now).1 sr with h3 | h3 <;>
        rw [h3] at hmem <;>
          simp only [List.append_nil, List.mem_cons, List.mem_append,
            List.mem_singleton, exhaustionError] at hmem
      · rcases hmem with h | h
        · simp at h
        · obtain ⟨m, hm⟩ := hlog _ h
          simp at hm
      · rcases hmem with h | h | h
        · simp at h
        · obtain ⟨m, hm⟩ := hlog _ h
          simp at hm
        · simp at h
    · rintro ⟨hc, h1, h2, h3⟩
      exfalso
      apply htc
      subst hc
      simp [trigCond, h1, h2, h3]

end AutoReconnect

/-! ## Claim theorems -/

/-- C1: during a `poll()` call with both the status and reconnect-trigger
callbacks set, the reconnect-trigger callback is invoked if and only if,
at the decision point of that call (after the internal status update,
spec §4.1 steps 3-4): the status callback returned not-connected, enabled
is true, `attemptCount < maxAttempts`, and the elapsed monotonic time
since `lastAttemptTime` strictly exceeds `reconnectDelayMs`. -/
theorem C1_trigger_iff (s : AutoReconnect) (now : Nat) (sr rr : Bool)
    (hs : s.hasStatusCallback = true) (hr : s.hasReconnectCallback = true) :
    Event.reconnectCall rr ∈ (s.loop now sr rr).2 ↔
      (sr = false ∧ (s.statusPhase sr now).1.shouldReconnect = true ∧
       (s.statusPhase sr now).1.reconnectAttempts <
         (s.statusPhase sr now).1.maxReconnectAttempts ∧
       ulSub now (s.statusPhase sr now).1.lastConnectAttempt >
         (s.statusPhase sr now).1.reconnectDelayMs) :=
  AutoReconnect.loop_trigger_iff s now sr rr hs hr

/-- Witness for C1 at a concrete input: the guard holds at `t = 101` for
the §8 scenario fixture, so the reconnect callback is invoked. -/
theorem C1_trigger_iff_witness :
    Event.reconnectCall true ∈ (c4Scenario.loop 101 false true).2 :=
  (C1_trigger_iff c4Scenario 101 false true rfl rfl).mpr (by decide)

/-- C2: the exhaustion check of `loop()` (lines 155-161) runs after the
trigger logic in the same call: if a call (status callback returning
not-connected) invokes the reconnect callback and ends with
`attemptCount >= maxAttempts`, that same call clears `enabled` and, the
error callback being registered, reports the exhaustion error. -/
theorem C2_same_call_exhaustion (s : AutoReconnect) (now : Nat) (rr : Bool)
    (hs : s.hasStatusCallback = true) (hr : s.hasReconnectCallback = true)
    (he : s.hasErrorCallback = true)
    (htrig : Event.reconnectCall rr ∈ (s.loop now false rr).2)
    (hge : (s.loop now false rr).1.maxReconnectAttempts ≤
      (s.loop now false rr).1.reconnectAttempts) :
    (s.loop now false rr).1.shouldReconnect = false ∧
      exhaustionError s.connectionName ∈ (s.loop now false rr).2 := by
  have hfire : (s.loop now false rr).2.any isReconnectCall = true :=
    List.any_eq_true.mpr ⟨_, htrig, rfl⟩
  obtain ⟨-, -, -, -, -, hlt, hcount, -, hpre⟩ := AutoReconnect.loop_false_spec s now rr hs hr
  have hsrpre : s.shouldReconnect = true := (hpre hfire).2
  have hpost : (s.loop now false rr).1.shouldReconnect = false := by
    by_contra hc
    have := hlt (by simpa using hc)
    omega
  refine ⟨hpost, ?_⟩
  have hone : List.count (exhaustionError s.connectionName) (s.loop now false rr).2 = 1 := by
    rw [hcount]
    simp [hsrpre, hpost, he]
  by_contra hnot
  rw [List.count_eq_zero.mpr hnot] at hone
  simp at hone

/-- Witness for C2: in the one-attempt fixture polled at `t = 200`, the
trigger consumes the last slot and the same call disables and reports. -/
theorem C2_same_call_exhaustion_witness :
    (c3Scenario.loop 200 false true).1.shouldReconnect = false ∧
      exhaustionError "Connection" ∈ (c3Scenario.loop 200 false true).2 :=
  C2_same_call_exhaustion c3Scenario 200 true rfl rfl rfl (by decide) (by decide)

/-- Counterexample to C3 as stated: with `maxAttempts = 1`, the poll at
`t = 200` contains the last (only) trigger and already sets `enabled = false`
and emits the exhaustion error itself; the next poll at `t = 400` changes
nothing and emits nothing beyond the status query, so the *next* call does
not set `enabled = false` nor emit the error. -/
theorem C3_counterexample :
    (c3Scenario.loop 200 false true).1.shouldReconnect = false ∧
    exhaustionError "Connection" ∈ (c3Scenario.loop 200 false true).2 ∧
    Event.reconnectCall true ∈ (c3Scenario.loop 200 false true).2 ∧
    ((c3Scenario.loop 200 false true).1.loop 400 false true) =
      ((c3Scenario.loop 200 false true).1, [Event.statusQuery false]) := by
  decide

/-- C3 (amended): in every run of `poll()` calls with the status callback
always returning not-connected and exactly `maxAttempts` reconnect
triggers fired, the supervisor ends disabled, the exhaustion error is
emitted exactly once over the whole run, and every call that emits it is
a call that also fires a trigger (the last one) — not the following call. -/
theorem C3_amended_exhaustion_once (s : AutoReconnect) (ps : List (Nat × Bool))
    (hs : s.hasStatusCallback = true) (hr : s.hasReconnectCallback = true)
    (he : s.hasErrorCallback = true) (hsr : s.shouldReconnect = true)
    (h0 : s.reconnectAttempts = 0) (hpos : 1 ≤ s.maxReconnectAttempts)
    (htrig : ((triggerTimes s ps).length : Int) = s.maxReconnectAttempts) :
    (runLoops s ps).1.shouldReconnect = false ∧
    ((runLoops s ps).2.map (List.count (exhaustionError s.connectionName))).sum = 1 ∧
    (∀ evs ∈ (runLoops s ps).2, exhaustionError s.connectionName ∈ evs →
       evs.any isReconnectCall = true) := by
  have hfin_att := runLoops_attempts s ps hs hr
  have hne : ps ≠ [] := by
    intro h
    subst h
    simp [triggerTimes] at htrig
    omega
  have hdis : (runLoops s ps).1.shouldReconnect = false := by
    by_contra hc
    have hc' : (runLoops s ps).1.shouldReconnect = true := by simpa using hc
    have hlt := runLoops_last_inv s ps hs hr hne hc'
    have hmax := (runLoops_pres s ps).1
    omega
  refine ⟨hdis, ?_, runLoops_err_in_trigger s ps hs hr (fun _ => by omega)⟩
  rw [runLoops_exhaust_count s ps hs hr he]
  simp [hsr, hdis]

/-- Witness for the amended C3: the one-attempt fixture run at times 200
then 400 fires exactly one trigger and one exhaustion error. -/
theorem C3_amended_exhaustion_once_witness :
    (runLoops c3Scenario [(200, true), (400, true)]).1.shouldReconnect = false ∧
    ((runLoops c3Scenario [(200, true), (400, true)]).2.map
        (List.count (exhaustionError c3Scenario.connectionName))).sum = 1 ∧
    (∀ evs ∈ (runLoops c3Scenario [(200, true), (400, true)]).2,
       exhaustionError c3Scenario.connectionName ∈ evs →
         evs.any isReconnectCall = true) :=
  C3_amended_exhaustion_once c3Scenario [(200, true), (400, true)]
    rfl rfl rfl rfl rfl (by decide) (by decide)

/-- Counterexample to C4 as stated: for the §8 scenario fixture
(`maxAttempts = 2`, `reconnectDelayMs = 100`, status callback false,
trigger callback true), the first `poll()` at monotonic time `t = 0` does
NOT fire an attempt: `millis() - _lastConnectAttempt` is `0 - 0 = 0`,
which does not strictly exceed 100, so `attemptCount` stays 0 and the
reconnect callback is not invoked. -/
theorem C4_counterexample :
    (c4Scenario.loop 0 false true).1.reconnectAttempts = 0 ∧
    Event.reconnectCall true ∉ (c4Scenario.loop 0 false true).2 := by
  decide

/-- C4 (amended): in the §8 scenario the first poll at `t = 0` fires no
attempt and leaves `attemptCount = 0`, because the elapsed time since the
initial `lastAttemptTime = 0` must strictly exceed the 100 ms delay before
a trigger fires; the first attempt fires at the first poll whose time
exceeds 100 (for example `t = 101`), leaving `attemptCount = 1`. -/
theorem C4_amended_first_attempt :
    (c4Scenario.loop 0 false true).1.reconnectAttempts = 0 ∧
    Event.reconnectCall true ∉ (c4Scenario.loop 0 false true).2 ∧
    ((c4Scenario.loop 0 false true).1.loop 101 false true).1.reconnectAttempts = 1 ∧
    Event.reconnectCall true ∈ ((c4Scenario.loop 0 false true).1.loop 101 false true).2 := by
  decide

/-- C5: whenever a `poll()` call (both callbacks set) invokes the
reconnect-trigger callback, `attemptCount` is incremented by exactly 1
and `lastAttemptTime` and `connectionStartTime` are both set to the
current monotonic time, whatever the callback returned; and if it
returned false, the error callback (when registered) is invoked exactly
once with the "reconnect attempt failed to start" message. -/
theorem C5_trigger_updates (s : AutoReconnect) (now : Nat) (sr rr : Bool)
    (hs : s.hasStatusCallback = true) (hr : s.hasReconnectCallback = true)
    (htrig : Event.reconnectCall rr ∈ (s.loop now sr rr).2) :
    (s.loop now sr rr).1.reconnectAttempts = s.reconnectAttempts + 1 ∧
    (s.loop now sr rr).1.lastConnectAttempt = ul now ∧
    (s.loop now sr rr).1.connectionStartTime = ul now ∧
    (rr = false → s.hasErrorCallback = true →
      (s.loop now sr rr).2.count
          (Event.errorMsg (s.connectionName ++ " reconnect attempt failed to start")) = 1) := by
  have hsr0 : sr = false :=
    ((AutoReconnect.loop_trigger_iff s now sr rr hs hr).mp htrig).1
  subst hsr0
  have hfire : (s.loop now false rr).2.any isReconnectCall = true :=
    List.any_eq_true.mpr ⟨_, htrig, rfl⟩
  obtain ⟨-, hatt, -, -, -, -, -, -, -⟩ := AutoReconnect.loop_false_spec s now rr hs hr
  obtain ⟨hcst, hlast, hcnt⟩ := AutoReconnect.loop_trigger_details s now rr hs hr hfire
  refine ⟨?_, hlast, hcst, ?_⟩
  · rw [hatt, hfire]
    simp
  · intro hrr he
    rw [hcnt]
    simp [hrr, he]

/-- Witness for C5 at a concrete input: the one-attempt fixture polled at
`t = 200` with the reconnect callback returning false. -/
theorem C5_trigger_updates_witness :
    (c3Scenario.loop 200 false false).1.reconnectAttempts = 1 ∧
    (c3Scenario.loop 200 false false).1.lastConnectAttempt = ul 200 ∧
    (c3Scenario.loop 200 false false).1.connectionStartTime = ul 200 ∧
    (c3Scenario.loop 200 false false).2.count
        (Event.errorMsg ("Connection" ++ " reconnect attempt failed to start")) = 1 := by
  have h := C5_trigger_updates c3Scenario 200 false false rfl rfl (by decide)
  exact ⟨h.1, h.2.1, h.2.2.1, h.2.2.2 rfl rfl⟩

/-- C6: over any run of `poll()` calls at nondecreasing monotonic times
with the status callback always returning not-connected and the
reconnect callback always returning true, the attempt count grows by
exactly one per trigger (final count = initial + number of triggers), and
no two triggers occur with elapsed time between them less than the
configured delay. -/
theorem C6_trigger_spacing (s : AutoReconnect) (ps : List (Nat × Bool))
    (hs : s.hasStatusCallback = true) (hr : s.hasReconnectCallback = true)
    (hrr : ∀ p ∈ ps, p.2 = true)
    (hmono : (ps.map Prod.fst).Pairwise (· ≤ ·))
    (hdM : s.reconnectDelayMs < ulongMod) :
    ((runLoops s ps).1.reconnectAttempts =
       s.reconnectAttempts + ((triggerTimes s ps).length : Int)) ∧
    (triggerTimes s ps).Pairwise (fun a b => ¬ (b - a < s.reconnectDelayMs)) := by
  refine ⟨runLoops_attempts s ps hs hr, ?_⟩
  have hchain := trigger_chain s ps s.reconnectDelayMs hs hr rfl hdM hmono
  have hsorted : (triggerTimes s ps).Pairwise (· ≤ ·) :=
    List.Pairwise.sublist (triggerTimes_sublist s ps) hmono
  exact pairwise_of_chain_sorted hsorted hchain

/-- Witness for C6: the §8 fixture polled at times 0 and 101. -/
theorem C6_trigger_spacing_witness :
    ((runLoops c4Scenario [(0, true), (101, true)]).1.reconnectAttempts =
       c4Scenario.reconnectAttempts +
         ((triggerTimes c4Scenario [(0, true), (101, true)]).length : Int)) ∧
    (triggerTimes c4Scenario [(0, true), (101, true)]).Pairwise
      (fun a b => ¬ (b - a < c4Scenario.reconnectDelayMs)) :=
  C6_trigger_spacing c4Scenario [(0, true), (101, true)] rfl rfl
    (by decide) (by decide) (by decide)

/-- Counterexample to C7 as stated: after `setMaxAttempts(-1)` (accepted
unvalidated), registering both required callbacks, and one `poll()` while
disconnected, the supervisor is reachable with `enabled = false` yet
`attemptCount = 0 > maxAttempts = -1`, violating the claimed invariant
`attemptCount <= maxAttempts` once disabled. -/
theorem C7_counterexample :
    (runOps (mkAutoReconnect "Connection") c7Ops).1.shouldReconnect = false ∧
    ¬ ((runOps (mkAutoReconnect "Connection") c7Ops).1.reconnectAttempts ≤
        (runOps (mkAutoReconnect "Connection") c7Ops).1.maxReconnectAttempts) := by
  decide

/-- C7 (amended): (1) in every run in which each `setMaxAttempts` call
supplies a value at least the attempt count current at that call
(`goodRun`), starting from a state with `0 <= attemptCount <= maxAttempts`,
the final state satisfies `attemptCount <= maxAttempts` — in particular
once `enabled` is false; (2)-(3) `wasConnected` always equals the most
recently observed connection status (the argument of the last
`onConnectionStatusChanged` invocation, explicit or driven by a ready
`poll()`), and is untouched by runs that observe nothing. -/
theorem C7_amended_invariants :
    (∀ (s : AutoReconnect) (ops : List Op),
       goodRun s ops = true → 0 ≤ s.reconnectAttempts →
       s.reconnectAttempts ≤ s.maxReconnectAttempts →
       (runOps s ops).1.shouldReconnect = false →
       (runOps s ops).1.reconnectAttempts ≤ (runOps s ops).1.maxReconnectAttempts) ∧
    (∀ (s : AutoReconnect) (ops : List Op) (b : Bool),
       runObs s ops = some b → (runOps s ops).1.wasConnected = b) ∧
    (∀ (s : AutoReconnect) (ops : List Op),
       runObs s ops = none → (runOps s ops).1.wasConnected = s.wasConnected) := by
  refine ⟨?_, ?_, ?_⟩
  · intro s ops hg h1 h2 _
    exact (inv_run s ops hg h1 h2).2
  · intro s ops b hb
    exact (obs_run s ops).1 b hb
  · intro s ops hn
    exact (obs_run s ops).2 hn

/-- Witness for the amended C7 at concrete inputs: a run that exhausts a
zero-attempt budget and disables itself keeps `attemptCount <= maxAttempts`;
an explicit status change is reflected in `wasConnected`; an observation-free
run leaves `wasConnected` alone. -/
theorem C7_amended_invariants_witness :
    ((runOps (mkAutoReconnect "Connection")
        [Op.setStatusCallback true, Op.setReconnectCallback true, Op.setMaxAttempts 0,
         Op.loopCall 0 false true]).1.reconnectAttempts ≤
      (runOps (mkAutoReconnect "Connection")
        [Op.setStatusCallback true, Op.setReconnectCallback true, Op.setMaxAttempts 0,
         Op.loopCall 0 false true]).1.maxReconnectAttempts) ∧
    (runOps (mkAutoReconnect "Connection") [Op.statusChanged true 5]).1.wasConnected = true ∧
    (runOps (mkAutoReconnect "Connection") [Op.reset]).1.wasConnected =
      (mkAutoReconnect "Connection").wasConnected :=
  ⟨C7_amended_invariants.1 (mkAutoReconnect "Connection")
      [Op.setStatusCallback true, Op.setReconnectCallback true, Op.setMaxAttempts 0,
       Op.loopCall 0 false true] (by decide) (by decide) (by decide) (by decide),
   C7_amended_invariants.2.1 (mkAutoReconnect "Connection") [Op.statusChanged true 5] true
     (by decide),
   C7_amended_invariants.2.2 (mkAutoReconnect "Connection") [Op.reset] (by decide)⟩

/-- C8: if either the status callback or the reconnect-trigger callback is
unset, `loop()` returns immediately: the state is unchanged and no
callback of any kind is invoked (empty event list). -/
theorem C8_unset_noop (s : AutoReconnect) (now : Nat) (sr rr : Bool)
    (h : s.hasStatusCallback = false ∨ s.hasReconnectCallback = false) :
    s.loop now sr rr = (s, []) :=
  AutoReconnect.loop_not_ready now sr rr h

/-- Witness for C8: a freshly constructed supervisor has no callbacks, so
`loop()` is a complete no-op. -/
theorem C8_unset_noop_witness :
    (mkAutoReconnect "Connection").loop 0 false true = (mkAutoReconnect "Connection", []) :=
  C8_unset_noop (mkAutoReconnect "Connection") 0 false true (Or.inl rfl)

/-- C9: a freshly constructed supervisor starts with `enabled`
(`_shouldReconnect`) already true, `wasConnected = false`,
`attemptCount = 0`, both timestamps 0, `maxAttempts = 5`,
`connectionTimeoutMs = 15000` and `reconnectDelayMs = 30000`; in
particular, with only the two required callbacks registered it fires a
reconnect decision on `poll()` without any prior `enable()` call. -/
theorem C9_constructor_defaults :
    (mkAutoReconnect "Connection").shouldReconnect = true ∧
    (mkAutoReconnect "Connection").wasConnected = false ∧
    (mkAutoReconnect "Connection").reconnectAttempts = 0 ∧
    (mkAutoReconnect "Connection").lastConnectAttempt = 0 ∧
    (mkAutoReconnect "Connection").connectionStartTime = 0 ∧
    (mkAutoReconnect "Connection").maxReconnectAttempts = 5 ∧
    (mkAutoReconnect "Connection").connectionTimeoutMs = 15000 ∧
    (mkAutoReconnect "Connection").reconnectDelayMs = 30000 ∧
    Event.reconnectCall true ∈
      ((((mkAutoReconnect "Connection").setReconnectCallback true).setStatusCallback
          true).loop 30001 false true).2 := by
  refine ⟨rfl, rfl, rfl, rfl, rfl, rfl, rfl, rfl, ?_⟩
  decide

/-- C10: `setMaxAttempts` stores any integer without validation, zero and
negative values included; and after setting `maxAttempts` to a value at
most the current `attemptCount`, the next `poll()` while disconnected and
enabled (with the required callbacks and the error callback registered)
fires no reconnect trigger, yet sets `enabled = false` and emits the
exhaustion error, with `attemptCount` unchanged. -/
theorem C10_lowered_budget :
    (∀ (s : AutoReconnect) (n : Int), (s.setMaxAttempts n).maxReconnectAttempts = n) ∧
    (∀ (s : AutoReconnect) (n : Int) (now : Nat) (rr : Bool),
       s.hasStatusCallback = true → s.hasReconnectCallback = true →
       s.hasErrorCallback = true → s.shouldReconnect = true →
       n ≤ s.reconnectAttempts →
       ((∀ b : Bool, Event.reconnectCall b ∉ ((s.setMaxAttempts n).loop now false rr).2) ∧
        ((s.setMaxAttempts n).loop now false rr).1.shouldReconnect = false ∧
        exhaustionError s.connectionName ∈ ((s.setMaxAttempts n).loop now false rr).2 ∧
        ((s.setMaxAttempts n).loop now false rr).1.reconnectAttempts =
          s.reconnectAttempts)) := by
  constructor
  · intro s n
    simp [AutoReconnect.setMaxAttempts]
  · intro s n now rr hs hr he hsr hle
    obtain ⟨-, hatt, -, -, -, hlt, hcount, -, hpre⟩ :=
      AutoReconnect.loop_false_spec (s.setMaxAttempts n) now rr hs hr
    have hle' : (s.setMaxAttempts n).maxReconnectAttempts ≤
        (s.setMaxAttempts n).reconnectAttempts := by
      simp [AutoReconnect.setMaxAttempts]
      exact hle
    have hnof : ((s.setMaxAttempts n).loop now false rr).2.any isReconnectCall = false := by
      by_contra hc
      have := (hpre (by simpa using hc)).1
      omega
    have hnomem : ∀ b : Bool,
        Event.reconnectCall b ∉ ((s.setMaxAttempts n).loop now false rr).2 := by
      intro b hmem
      have : ((s.setMaxAttempts n).loop now false rr).2.any isReconnectCall = true :=
        List.any_eq_true.mpr ⟨_, hmem, rfl⟩
      rw [hnof] at this
      simp at this
    have hattkeep : ((s.setMaxAttempts n).loop now false rr).1.reconnectAttempts =
        s.reconnectAttempts := by
      rw [hatt, hnof]
      simp [AutoReconnect.setMaxAttempts]
    have hpost : ((s.setMaxAttempts n).loop now false rr).1.shouldReconnect = false := by
      by_contra hc
      have hlt' := hlt (by simpa using hc)
      have hmax := (AutoReconnect.loop_pres (s.setMaxAttempts n) now false rr).1
      rw [hattkeep, hmax] at hlt'
      simp [AutoReconnect.setMaxAttempts] at hlt'
      omega
    refine ⟨hnomem, hpost, ?_, hattkeep⟩
    have hsr' : (s.setMaxAttempts n).shouldReconnect = true := by
      simpa [AutoReconnect.setMaxAttempts] using hsr
    have hname : (s.setMaxAttempts n).connectionName = s.connectionName := by
      simp [AutoReconnect.setMaxAttempts]
    have he' : (s.setMaxAttempts n).hasErrorCallback = true := he
    have hone : List.count (exhaustionError s.connectionName)
        ((s.setMaxAttempts n).loop now false rr).2 = 1 := by
      rw [← hname, hcount]
      simp [hsr', hpost, he']
    by_contra hnot
    rw [List.count_eq_zero.mpr hnot] at hone
    simp at hone

/-- Witness for C10 at concrete inputs: a negative budget is stored as
given, and lowering the budget to 0 makes the next disconnected poll
disable the supervisor with the exhaustion error and no new attempt. -/
theorem C10_lowered_budget_witness :
    ((mkAutoReconnect "Connection").setMaxAttempts (-7)).maxReconnectAttempts = -7 ∧
    ((∀ b : Bool, Event.reconnectCall b ∉ ((c3Scenario.setMaxAttempts 0).loop 50 false true).2) ∧
     ((c3Scenario.setMaxAttempts 0).loop 50 false true).1.shouldReconnect = false ∧
     exhaustionError c3Scenario.connectionName ∈
       ((c3Scenario.setMaxAttempts 0).loop 50 false true).2 ∧
     ((c3Scenario.setMaxAttempts 0).loop 50 false true).1.reconnectAttempts =
       c3Scenario.reconnectAttempts) :=
  ⟨C10_lowered_budget.1 (mkAutoReconnect "Connection") (-7),
   C10_lowered_budget.2 c3Scenario 0 50 true rfl rfl rfl rfl (by decide)⟩
